import Mathlib

set_option maxRecDepth 100000

/-!
Verification of the kisan-ai farming-assistant backend against its design
specification.  The Python modules `backend/tools/farm_manager.py`,
`backend/tools/info_service.py` and `backend/tools/ai_service.py` are shallowly
embedded below: file I/O becomes an explicit `FileState` / list-of-records
input, Python floats become rationals (`ℚ`), Python dicts become structures or
association lists, and `random.uniform` draws become an explicit function
argument.  Each definition mirrors one Python function and keeps its name.
-/

/-! ### Python string primitives

`pyLower` models `str.lower`, `pyStrip` models `str.strip`, `pyIn` models the
substring test `needle in hay`, and `pyInt` models `int(...)` applied to a
float, which truncates toward zero. -/

/-- Python `s.lower()`, modelled character-wise (the source only lowercases
ASCII city/crop names and prompt text). -/
def pyLower (s : String) : String := ⟨s.data.map Char.toLower⟩

/-- Python `s.strip()`: drop surrounding whitespace from both ends. -/
def pyStrip (s : String) : String :=
  ⟨((s.data.dropWhile Char.isWhitespace).reverse.dropWhile Char.isWhitespace).reverse⟩

/-- Split a character list at every occurrence of `sep`: Python
`s.split(sep)` / `String.splitOn` for a one-character separator. -/
def splitChar (sep : Char) : List Char → List (List Char)
  | [] => [[]]
  | c :: cs =>
    let r := splitChar sep cs
    if c = sep then [] :: r
    else
      match r with
      | h :: t => (c :: h) :: t
      | [] => [[c]]

/-- Parse a non-empty all-digit character list as a decimal numeral
(`String.toNat?` on a field produced by a split). -/
def natFromDigits? (l : List Char) : Option Nat :=
  if !l.isEmpty && l.all Char.isDigit then
    some (l.foldl (fun n c => n * 10 + (c.toNat - 48)) 0)
  else none

/-- Decimal rendering of a natural number (fuel-based so that it reduces in
the kernel). -/
def natToStrAux : Nat → Nat → List Char
  | 0, _ => []
  | fuel + 1, n =>
    if n < 10 then [Nat.digitChar n]
    else natToStrAux fuel (n / 10) ++ [Nat.digitChar (n % 10)]

/-- Decimal rendering of a natural number as a string. -/
def natToStr (n : Nat) : String := ⟨natToStrAux (n + 1) n⟩

/-- Python `needle in hay` on strings: contiguous-substring test. -/
def pyIn (needle hay : String) : Bool := decide (needle.data <:+: hay.data)

/-- Python `int(x)` on a float/rational: truncation toward zero. -/
def pyInt (q : ℚ) : Int := if 0 ≤ q then ⌊q⌋ else ⌈q⌉

/-! ### JSON values and tolerant loads (`farm_manager.load_crops`,
`farm_manager.load_expenses`, `info_service.load_soil_data`)

A backing file is either missing, present but not valid JSON, or parses to a
JSON value.  The three load functions below mirror the Python bodies: crops and
expenses check `isinstance(data, list)`; the soil load performs no shape check
and returns whatever parsed. -/

/-- JSON value, as produced by `json.load`. -/
inductive JValue where
  | null
  | bool (b : Bool)
  | num (q : ℚ)
  | str (s : String)
  | arr (elems : List JValue)
  | obj (fields : List (String × JValue))

/-- State of a backing JSON file as seen by a load operation. -/
inductive FileState where
  | missing
  | unparsable
  | parsed (v : JValue)

/-- Discriminator for JSON arrays (Python `isinstance(data, list)`). -/
def JValue.isArr : JValue → Bool
  | .arr _ => true
  | _ => false

/-- Mirrors `farm_manager.load_crops`: missing file, parse error, or a parsed
value that is not a list all yield `[]`; a parsed list is returned as-is. -/
def load_crops : FileState → List JValue
  | .missing => []
  | .unparsable => []
  | .parsed (.arr xs) => xs
  | .parsed _ => []

/-- Mirrors `farm_manager.load_expenses` (identical body to `load_crops`). -/
def load_expenses : FileState → List JValue
  | .missing => []
  | .unparsable => []
  | .parsed (.arr xs) => xs
  | .parsed _ => []

/-- Mirrors `info_service.load_soil_data`: missing file and parse error yield
the empty dict, but a successfully parsed value is returned unchanged — the
source has no `isinstance(data, dict)` check. -/
def load_soil_data : FileState → JValue
  | .missing => .obj []
  | .unparsable => .obj []
  | .parsed v => v

/-! ### Crop deletion (`farm_manager.delete_crop`)

`delete_crop` loads the crop list, validates the index, and only on success
pops the element and saves.  The embedding returns the response together with
`some newList` when a save happens and `none` when it does not; the list that a
subsequent load observes is `saved.getD crops`. -/

/-- Response value of `delete_crop`: the error dict or the success dict
carrying the removed element. -/
inductive CropDeleteResult (α : Type) where
  | error (msg : String)
  | success (removed : α)
deriving DecidableEq

/-- Mirrors `farm_manager.delete_crop` on an already-loaded crop list.  The
second component records the list passed to `save_crops`, or `none` when no
save is performed. -/
def delete_crop {α : Type} (crops : List α) (index : Int) :
    CropDeleteResult α × Option (List α) :=
  if h : index < 0 ∨ (crops.length : Int) ≤ index then
    (.error "Invalid crop index", none)
  else
    have hi : index.toNat < crops.length := by omega
    (.success (crops.get ⟨index.toNat, hi⟩), some (crops.eraseIdx index.toNat))

/-- Stored crop list after a `delete_crop` call: the saved list if a save
happened, else the previous contents. -/
def stored_after_delete {α : Type} (crops : List α) (index : Int) : List α :=
  ((delete_crop crops index).2).getD crops

/-! ### Expense ledger (`farm_manager.add_expense`, `get_expenses`,
`get_summary`)

Dates: `add_expense` tries `datetime.strptime(date, "%Y-%m-%d")`, then
`"%d %b %Y"`, producing a sortable ISO `ts` and a display `date`; both parses
failing leaves `ts = None`.  The two `strptime` formats are embedded below,
including calendar validation (strptime rejects day 31 of April, etc.) and
zero-padded `strftime` rendering. -/

/-- Gregorian leap-year rule used by Python's `datetime` validation. -/
def isLeap (y : Nat) : Bool := (y % 4 == 0 && y % 100 != 0) || y % 400 == 0

/-- Number of days in a month, as validated by `datetime.strptime`. -/
def daysInMonth (y m : Nat) : Nat :=
  if m = 2 then (if isLeap y then 29 else 28)
  else if m = 4 ∨ m = 6 ∨ m = 9 ∨ m = 11 then 30
  else 31

/-- Calendar date as held by a Python `datetime` (time components unused). -/
structure Date where
  year : Nat
  month : Nat
  day : Nat
deriving DecidableEq

/-- Abbreviated month names rendered by `strftime("%b")` in the C locale. -/
def monthNames : List String :=
  ["Jan", "Feb", "Mar", "Apr", "May", "Jun",
   "Jul", "Aug", "Sep", "Oct", "Nov", "Dec"]

/-- Month number for an abbreviated month name; `strptime` matches the `%b`
name case-insensitively. -/
def monthFromAbbr (bs : List Char) : Option Nat :=
  (monthNames.findIdx? (fun n => n.data.map Char.toLower == bs.map Char.toLower)).map
    (· + 1)

/-- Mirrors `datetime.strptime(s, "%Y-%m-%d")`: a 4-digit year and 1- or
2-digit month/day fields, validated against the calendar. -/
def strptime_ymd (s : String) : Option Date :=
  match splitChar (Char.ofNat 45) s.data with
  | [ys, ms, ds] =>
    match natFromDigits? ys, natFromDigits? ms, natFromDigits? ds with
    | some y, some m, some d =>
      if ys.length = 4 ∧ 1 ≤ ms.length ∧ ms.length ≤ 2 ∧ 1 ≤ ds.length ∧
          ds.length ≤ 2 ∧ 1 ≤ m ∧ m ≤ 12 ∧ 1 ≤ d ∧ d ≤ daysInMonth y m then
        some ⟨y, m, d⟩
      else none
    | _, _, _ => none
  | _ => none

/-- Mirrors `datetime.strptime(s, "%d %b %Y")`. -/
def strptime_dby (s : String) : Option Date :=
  match splitChar (Char.ofNat 32) s.data with
  | [ds, bs, ys] =>
    match natFromDigits? ds, monthFromAbbr bs, natFromDigits? ys with
    | some d, some m, some y =>
      if 1 ≤ ds.length ∧ ds.length ≤ 2 ∧ ys.length = 4 ∧ 1 ≤ d ∧
          d ≤ daysInMonth y m then
        some ⟨y, m, d⟩
      else none
    | _, _, _ => none
  | _ => none

/-- Zero-pad a numeral to two digits (`strftime` `%m`, `%d`). -/
def pad2 (n : Nat) : String := if n < 10 then "0" ++ natToStr n else natToStr n

/-- Zero-pad a numeral to four digits (`strftime` `%Y`). -/
def pad4 (n : Nat) : String :=
  if n < 10 then "000" ++ natToStr n
  else if n < 100 then "00" ++ natToStr n
  else if n < 1000 then "0" ++ natToStr n
  else natToStr n

/-- Mirrors `dt.strftime("%Y-%m-%d")`. -/
def strftime_iso (d : Date) : String :=
  pad4 d.year ++ "-" ++ pad2 d.month ++ "-" ++ pad2 d.day

/-- Mirrors `dt.strftime("%d %b %Y")`. -/
def strftime_display (d : Date) : String :=
  pad2 d.day ++ " " ++ (monthNames.getD (d.month - 1) "") ++ " " ++ pad4 d.year

/-- Stored expense record.  `type` is optional because records loaded from the
JSON file may lack the key (`e.get("type")` then yields `None`); `amount`
models the Python float. -/
structure Expense where
  title : String
  amount : ℚ
  type : Option String
  date : String
  ts : Option String
deriving DecidableEq

/-- Mirrors `farm_manager.add_expense` on an already-loaded expense list:
computes `(ts, formatted_date)` by the two-format parse cascade, appends the
new record and saves.  Returns the new record and the saved list. -/
def add_expense (expenses : List Expense) (title : String) (amount : ℚ)
    (ty : String) (date : String) : Expense × List Expense :=
  let parsed : Option String × String :=
    match strptime_ymd date with
    | some dt => (some (strftime_iso dt), strftime_display dt)
    | none =>
      match strptime_dby date with
      | some dt => (some (strftime_iso dt), date)
      | none => (none, date)
  let t : Expense := ⟨title, amount, some ty, parsed.2, parsed.1⟩
  (t, expenses ++ [t])

/-- Fallback sort key from the display date (`get_expenses.sort_key` when the
`ts` entry is falsy): try `"%d %b %Y"` then `"%Y-%m-%d"`, re-rendered as ISO,
else the empty string. -/
def date_fallback_key (d : String) : String :=
  match strptime_dby d with
  | some dt => strftime_iso dt
  | none =>
    match strptime_ymd d with
    | some dt => strftime_iso dt
    | none => ""

/-- Mirrors the inner `sort_key` of `get_expenses`.  Python's `if ts:` is
false both for a missing key and for an empty string. -/
def sort_key (x : Expense) : String :=
  match x.ts with
  | some t => if t = "" then date_fallback_key x.date else t
  | none => date_fallback_key x.date

/-- Lexicographic comparison of character lists by code point: Python's
string `<=`. -/
def lexLe : List Char → List Char → Bool
  | [], _ => true
  | _ :: _, [] => false
  | a :: as, b :: bs =>
    if a < b then true
    else if b < a then false
    else lexLe as bs

/-- Python `a <= b` on strings. -/
def pyStrLe (a b : String) : Bool := lexLe a.data b.data

/-- Stable descending insertion of one record into an already-sorted list:
the record goes in front of the first element whose key is not greater.  This
places it before every equal-keyed element that was later in the original
list, which is exactly Python's stable-sort tie behaviour. -/
def insort (x : Expense) : List Expense → List Expense
  | [] => [x]
  | y :: t => if pyStrLe (sort_key y) (sort_key x) then x :: y :: t else y :: insort x t

/-- Stable descending sort by `sort_key`, inserting from the right so that
original order is kept among equal keys. -/
def py_sorted_desc : List Expense → List Expense
  | [] => []
  | x :: xs => insort x (py_sorted_desc xs)

/-- Mirrors `farm_manager.get_expenses`: `sorted(expenses, key=sort_key,
reverse=True)`.  Python's `sorted` with `reverse=True` is the stable
descending reordering by key, which is uniquely determined by the key order
and the original positions; `py_sorted_desc` computes it. -/
def get_expenses (expenses : List Expense) : List Expense :=
  py_sorted_desc expenses

/-- Summary dict returned by `farm_manager.get_summary`. -/
structure Summary where
  total_income : ℚ
  total_expense : ℚ
  profit : ℚ
deriving DecidableEq

/-- Mirrors the classification test `e.get("type") == "income"`. -/
def is_income (e : Expense) : Bool := e.type == some "income"

/-- Mirrors `farm_manager.get_summary` on an already-loaded list: one pass
accumulating `total_income` for records whose `type` equals `"income"` and
`total_expense` for every other record, then `profit` as their difference. -/
def get_summary (expenses : List Expense) : Summary :=
  let totals : ℚ × ℚ := expenses.foldl
    (fun acc e =>
      if is_income e then (acc.1 + e.amount, acc.2) else (acc.1, acc.2 + e.amount))
    (0, 0)
  ⟨totals.1, totals.2, totals.1 - totals.2⟩

/-- One `add_expense` call per tuple `(title, amount, type, date)`, applied in
order to a store. -/
def apply_adds : List (String × ℚ × String × String) → List Expense → List Expense
  | [], s => s
  | (t, a, ty, d) :: rest, s => apply_adds rest (add_expense s t a ty d).2

/-! ### Weather lookup (`info_service._find_local_weather`, `get_weather`)

The local cache `weather.json` is a list of records; only the `city` entry is
inspected by the search (via `r.get("city", "")`), the remaining entries are
carried verbatim for display.  A missing or unreadable cache file behaves like
the empty list (the `except` clause returns `None`, as does an exhausted
search). -/

/-- Record of the local weather cache.  `city` is the value of
`r.get("city", "")`; `temp`, `humidity` and `sky` model the payload entries
used by the chatbot's weather template (`data["temp"]` etc.), kept as their
rendered strings since they are only ever interpolated into text. -/
structure WeatherRec where
  city : String
  temp : String
  humidity : String
  sky : String
deriving DecidableEq

/-- Normalised city key `r.get("city", "").strip().lower()`. -/
def weather_city_key (r : WeatherRec) : String := pyLower (pyStrip r.city)

/-- Mirrors `info_service._find_local_weather`: exact case-insensitive match,
then substring match (only for a non-empty query), then the `"default"` /
`"pune"` fallback entry. -/
def find_local_weather (data : List WeatherRec) (city : String) :
    Option WeatherRec :=
  let city_l := pyLower (pyStrip city)
  match data.find? (fun r => weather_city_key r == city_l) with
  | some r => some r
  | none =>
    match data.find? (fun r => !(city_l == "") && pyIn city_l (weather_city_key r)) with
    | some r => some r
    | none =>
      data.find? (fun r => weather_city_key r == "default" || weather_city_key r == "pune")

/-- Result of `get_weather`: a cache record returned verbatim, or the error
dict `{"error": msg}`. -/
inductive WeatherResult where
  | found (r : WeatherRec)
  | error (msg : String)
deriving DecidableEq

/-- Mirrors `info_service.get_weather` in the configuration without an
`OPENWEATHER_KEY` credential: try the local cache, else the error dict. -/
def get_weather_no_key (data : List WeatherRec) (city : String) : WeatherResult :=
  match find_local_weather data city with
  | some r => .found r
  | none => .error "Missing OPENWEATHER_KEY in .env"

/-! ### Market price lookup (`info_service._find_local_price`,
`get_market_price`)

The live API call is embedded as an explicit `ApiResp` input: a non-200 status,
a 200 response with its (possibly empty) `records` list, or a raised transport
exception.  The unseeded `random.uniform(-0.1, 0.1)` draws of the history
synthesis become a function `u : Nat → ℚ` indexed by the loop variable `i`
(days before today).  Result dicts are embedded as association lists so that
claims about which keys are present are directly expressible; history entry
dates are represented by their day offset (the `strftime("%d %b")` rendering of
`today - i days` is presentation only). -/

/-- Record of the local price cache `prices.json` (entries read with
`r.get(...)`, so payload entries are optional). -/
structure PriceRec where
  crop : String
  state : String
  district : Option String
  market : Option String
  modal_price : Option ℚ
  min_price : Option ℚ
  max_price : Option ℚ
  arrival_date : Option String
  variety : Option String
deriving DecidableEq

/-- Mirrors `info_service._find_local_price`: exact case-insensitive crop
match, optionally narrowed by state when some candidate matches it, else a
substring crop match; the first candidate wins. -/
def find_local_price (data : List PriceRec) (crop state : String) :
    Option PriceRec :=
  let crop_l := pyLower (pyStrip crop)
  let state_l := pyLower (pyStrip state)
  let candidates := data.filter (fun r => pyLower (pyStrip r.crop) == crop_l)
  let candidates :=
    if state_l ≠ "" then
      let cand_state := candidates.filter (fun r => pyLower (pyStrip r.state) == state_l)
      if cand_state ≠ [] then cand_state else candidates
    else candidates
  let candidates :=
    if candidates = [] ∧ crop_l ≠ "" then
      data.filter (fun r => pyIn crop_l (pyLower (pyStrip r.crop)))
    else candidates
  candidates.head?

/-- One record of the live API's `records` list.  `modal_price` is the value
`records.get("modal_price")` as a rational; a response whose modal price is
absent or not convertible by `float(...)` raises inside the `try` block and is
therefore modelled by `ApiResp.exn`. -/
structure ApiRec where
  district : Option String
  market : Option String
  modal_price : ℚ
  min_price : Option ℚ
  max_price : Option ℚ
  arrival_date : Option String
  variety : Option String
deriving DecidableEq

/-- Outcome of the live `requests.get` call in `get_market_price`. -/
inductive ApiResp where
  | ok (records : List ApiRec)
  | badStatus (code : Nat)
  | exn (msg : String)

/-- Entry of the synthesized 7-day history: the dict
`{"date": (today - daysAgo days), "price": p}`. -/
structure HistEntry where
  daysAgo : Nat
  price : Int
deriving DecidableEq

/-- Value stored under a key of a result dict. -/
inductive DictVal where
  | str (s : String)
  | num (q : ℚ)
  | null
  | history (entries : List HistEntry)
deriving DecidableEq

/-- Embed an optional string payload entry (`None` when absent). -/
def optStr : Option String → DictVal
  | some s => .str s
  | none => .null

/-- Embed an optional numeric payload entry (`None` when absent). -/
def optNum : Option ℚ → DictVal
  | some q => .num q
  | none => .null

/-- Dict returned on a local-cache hit by `_find_local_price`. -/
def local_price_fields (r : PriceRec) : List (String × DictVal) :=
  [("crop", .str r.crop), ("state", .str r.state),
   ("district", optStr r.district), ("market", optStr r.market),
   ("modal_price", optNum r.modal_price), ("min_price", optNum r.min_price),
   ("max_price", optNum r.max_price), ("arrival_date", optStr r.arrival_date),
   ("variety", optStr r.variety), ("source", .str "local")]

/-- Mirrors the history loop `for i in range(6, -1, -1)`: entries for 6, 5,
…, 0 days ago (oldest first), each priced at
`int(float(base_price) * (1 + random.uniform(-0.1, 0.1)))`. -/
def price_history (base : ℚ) (u : Nat → ℚ) : List HistEntry :=
  [6, 5, 4, 3, 2, 1, 0].map (fun i => ⟨i, pyInt (base * (1 + u i))⟩)

/-- Mirrors `info_service.get_market_price`: live record with synthesized
history on a hit; otherwise local fallback; otherwise the branch-specific
error dict. -/
def get_market_price (commodity state : String) (api : ApiResp)
    (data : List PriceRec) (u : Nat → ℚ) : List (String × DictVal) :=
  match api with
  | .badStatus code =>
    match find_local_price data commodity state with
    | some r => local_price_fields r
    | none =>
      [("crop", .str commodity), ("state", .str state),
       ("error", .str ("API returned status code " ++ toString code))]
  | .ok [] =>
    match find_local_price data commodity state with
    | some r => local_price_fields r
    | none =>
      [("crop", .str commodity), ("state", .str state),
       ("error", .str "No data found for the given commodity and state")]
  | .ok (r :: _) =>
    [("crop", .str commodity), ("state", .str state),
     ("district", optStr r.district), ("market", optStr r.market),
     ("modal_price", .num r.modal_price), ("min_price", optNum r.min_price),
     ("max_price", optNum r.max_price), ("arrival_date", optStr r.arrival_date),
     ("variety", optStr r.variety),
     ("history", .history (price_history r.modal_price u))]
  | .exn msg =>
    match find_local_price data commodity state with
    | some r => local_price_fields r
    | none =>
      [("crop", .str commodity), ("state", .str state),
       ("modal_price", .str "N/A"), ("error", .str msg)]

/-- Python `d.get(k)` on an embedded result dict. -/
def field_get (d : List (String × DictVal)) (k : String) : Option DictVal :=
  (d.find? (fun kv => kv.1 == k)).map Prod.snd

/-! ### Soil lookup (`info_service.get_soil_report`)

The soil map is keyed by field name; values are the report dicts written by
`add_soil_report`.  Report entries only flow into a display template, so they
are kept as rendered strings. -/

/-- Soil report for one field, with entries as interpolated by the chatbot's
soil template. -/
structure SoilReport where
  ph : String
  nitrogen : String
  phosphorus : String
  potassium : String
  moisture : String
  soil_type : String
  last_tested : String
deriving DecidableEq

/-- Result of `get_soil_report`: a report or the dict `{"error": msg}`. -/
inductive SoilResult where
  | report (r : SoilReport)
  | error (msg : String)
deriving DecidableEq

/-- Mirrors `info_service.get_soil_report`: the requested field's report, else
the `"default"` field's report, else an error dict. -/
def get_soil_report (soil : List (String × SoilReport)) (field : String) :
    SoilResult :=
  match soil.lookup field with
  | some r => .report r
  | none =>
    match soil.lookup "default" with
    | some r => .report r
    | none => .error "No soil data"

/-! ### Chatbot (`ai_service`) in the offline configuration

With no OpenRouter credential every `ask_llm` call returns
`_mock_response(prompt)`, a canned answer chosen by scanning the lowered
prompt for keywords.  The prompt templates are reproduced verbatim (they are
f-strings; the embedded versions concatenate the question into the fixed
text).  `process_query` is embedded against an explicit environment holding
the local caches and stores; the returned `{"answer": text}` dict is modelled
by its text. -/

/-- Python `s.title()`: uppercase every cased character that follows a
non-cased one, lowercase the rest. -/
def pyTitleAux : List Char → Bool → List Char
  | [], _ => []
  | c :: cs, prevCased =>
    (if prevCased then c.toLower else c.toUpper) :: pyTitleAux cs c.isAlpha

/-- Python `s.title()` on a string. -/
def pyTitle (s : String) : String := ⟨pyTitleAux s.data false⟩

/-- Mirrors `ai_service._mock_response`. -/
def mock_response (prompt : String) : String :=
  let p := pyLower prompt
  if pyIn "weather" p then
    "The weather looks clear for the next few days. Good for spraying pesticides."
  else if pyIn "price" p then
    "Market prices are fluctuating. It might be good to hold for a week if you have storage."
  else if pyIn "soil" p then
    "Your soil nitrogen levels seem low. Consider adding Urea or compost."
  else if pyIn "finance" p then
    "You are in profit this season! Keep tracking your expenses."
  else if pyIn "advice" p || pyIn "tip" p then
    "Rotate your crops to maintain soil health and reduce pest attacks."
  else
    "I am in offline mode. Please check your internet or API key for live AI answers. Meanwhile: Farming is essential!"

/-- Mirrors `ai_service.ask_llm` when `get_openrouter_headers()` is falsy:
the call short-circuits to the mock. -/
def ask_llm_no_cred (prompt : String) : String := mock_response prompt

/-- Leading text of the `detect_intent` prompt template. -/
def intent_prompt_head : String :=
  "\n    Classify the intent of this question into one word:\n    - weather\n    - price\n    - soil\n    - finance\n    - crop_advice\n    - general\n\n    Question: \""

/-- Trailing text of the `detect_intent` prompt template. -/
def intent_prompt_tail : String := "\"\n\n    ONLY return one word.\n    "

/-- The f-string prompt built by `ai_service.detect_intent`. -/
def intent_prompt (question : String) : String :=
  intent_prompt_head ++ question ++ intent_prompt_tail

/-- Mirrors `ai_service.detect_intent` offline:
`ask_llm(prompt).strip().lower()`. -/
def detect_intent (question : String) : String :=
  pyLower (pyStrip (ask_llm_no_cred (intent_prompt question)))

/-- Leading text of the `extract_city` prompt template. -/
def city_prompt_head : String := "\n    Extract the city name from: \""

/-- Trailing text of the `extract_city` prompt template. -/
def city_prompt_tail : String :=
  "\"\n    If none found, return \"Pune\".\n    ONLY return the city.\n    "

/-- The f-string prompt built by `ai_service.extract_city`. -/
def city_prompt (question : String) : String :=
  city_prompt_head ++ question ++ city_prompt_tail

/-- Mirrors `ai_service.extract_city` offline: `ask_llm(prompt).strip()`. -/
def extract_city (question : String) : String :=
  pyStrip (ask_llm_no_cred (city_prompt question))

/-- The f-string prompt built by `ai_service.extract_crop`. -/
def crop_prompt (question : String) : String :=
  "\n    Extract the crop name from: \"" ++ question ++
    "\"\n    ONLY return the crop. If not found, return \"Tomato\".\n    "

/-- Mirrors `ai_service.extract_crop` offline. -/
def extract_crop (question : String) : String :=
  pyStrip (ask_llm_no_cred (crop_prompt question))

/-- Mirrors `ai_service.format_weather` (the interpolated f-string). -/
def format_weather (city : String) (r : WeatherRec) : String :=
  "\n🌦 **Weather Update – " ++ city ++ "**\nTemperature: **" ++ r.temp ++
    "°C**\nHumidity: **" ++ r.humidity ++ "%**\nSky: **" ++ pyTitle r.sky ++
    "**\n\n✅ Good time for outdoor farm work if rain chance is low.\n"

/-- Rendering of a dict value inside an f-string (`None` prints as `"None"`;
the rational stands in for the float's decimal rendering, which no verified
property inspects). -/
def render_val : DictVal → String
  | .str s => s
  | .num q => toString q
  | .null => "None"
  | .history _ => "history"

/-- Python truthiness of an optional dict value (`d.get(k) or ...`). -/
def truthy : Option DictVal → Bool
  | none => false
  | some .null => false
  | some (.str s) => !(s == "")
  | some (.num q) => !(q == 0)
  | some (.history es) => !es.isEmpty

/-- Python `d.get(k, default)` rendered into an f-string. -/
def field_get_default (d : List (String × DictVal)) (k dflt : String) : String :=
  match field_get d k with
  | some v => render_val v
  | none => dflt

/-- Mirrors `ai_service.format_price`, including the
`data.get('crop') or data.get('commodity') or 'Crop'` truthiness chain. -/
def format_price (d : List (String × DictVal)) : String :=
  let crop :=
    if truthy (field_get d "crop") then render_val ((field_get d "crop").getD .null)
    else if truthy (field_get d "commodity") then
      render_val ((field_get d "commodity").getD .null)
    else "Crop"
  let state := field_get_default d "state" "State"
  "\n📈 **Market Price for " ++ crop ++ " – " ++ state ++ "**\nMarket: **" ++
    field_get_default d "market" "N/A" ++ "**\nMin: **₹" ++
    field_get_default d "min_price" "N/A" ++ "**\nMax: **₹" ++
    field_get_default d "max_price" "N/A" ++
    "**\n\n✅ Compare local mandi rates to get best deal.\n"

/-- Mirrors `ai_service.format_soil`. -/
def format_soil (r : SoilReport) : String :=
  "\n🧪 **Soil Report**\nSoil Type: **" ++ r.soil_type ++ "**\npH: **" ++
    r.ph ++ "**\nMoisture: **" ++ r.moisture ++ "**\nN: **" ++ r.nitrogen ++
    "**\nP: **" ++ r.phosphorus ++ "**\nK: **" ++ r.potassium ++
    "**\nLast Tested: **" ++ r.last_tested ++
    "**\n\n✅ Soil looks healthy. Moderate fertilization recommended.\n"

/-- Mirrors `ai_service.format_finance` on a summary dict.  The
`data.get('total_income') or data.get('income') or 0` chains collapse to the
summary entries themselves because a falsy total is the number `0`. -/
def format_finance (s : Summary) : String :=
  "\n💰 **Farm Finance Summary**\nIncome: **₹" ++ toString s.total_income ++
    "**\nExpenses: **₹" ++ toString s.total_expense ++ "**\nProfit: **₹" ++
    toString s.profit ++ "**\n\n✅ Track weekly to avoid losses.\n"

/-- Offline environment of `process_query`: the local caches and stores
consulted by the dispatched services.  No OpenRouter credential and no
`OPENWEATHER_KEY` are configured (the demo configuration the mock path is
for), so weather resolution is `get_weather_no_key`. -/
structure Env where
  wcache : List WeatherRec
  pcache : List PriceRec
  api : ApiResp
  draws : Nat → ℚ
  soil : List (String × SoilReport)
  expenses : List Expense

/-- Mirrors `ai_service.process_query` in the offline configuration; the
returned dict `{"answer": text}` is modelled by `text`. -/
def process_query (env : Env) (question : String) : String :=
  let intent := detect_intent question
  if pyIn "weather" intent then
    let city := extract_city question
    match get_weather_no_key env.wcache city with
    | .error msg => msg
    | .found r => format_weather city r
  else if pyIn "price" intent then
    let crop := extract_crop question
    let d := get_market_price crop "Maharashtra" env.api env.pcache env.draws
    match field_get d "error" with
    | some v => render_val v
    | none => format_price d
  else if pyIn "soil" intent then
    match get_soil_report env.soil "default" with
    | .error msg => msg
    | .report r => format_soil r
  else if pyIn "finance" intent then
    format_finance (get_summary env.expenses)
  else if pyIn "crop_advice" intent then
    ask_llm_no_cred ("Give practical crop advice for a farmer: " ++ question ++
      ". Keep it short and in simple language.")
  else
    ask_llm_no_cred ("You are KisanAI. Explain answer simply for farmers: " ++ question)

/-- City string the mock extraction produces in the offline weather path: the
mock weather answer itself, returned by `extract_city` because the city
prompt contains the question and hence the word `weather`. -/
def mock_city_sentence : String :=
  "The weather looks clear for the next few days. Good for spraying pesticides."

/-! ## Claims -/

/-- C1 counterexample: the claim says the soil load returns the empty map when
the file parses to an unexpected JSON shape, but `load_soil_data` has no shape
check — a file parsing to the JSON list `[]` is returned as that list, not as
the empty map. -/
theorem C1_soil_shape_cex :
    load_soil_data (.parsed (.arr [])) ≠ JValue.obj [] := fun h => nomatch h

/-- C1 (amended): every load is total (never raises) and returns its empty
default on a missing or unparsable file; `load_crops` and `load_expenses`
additionally return `[]` on a parsed non-list and the list itself otherwise,
while `load_soil_data` returns whatever JSON value parsed, unchanged and
unchecked. -/
theorem C1_loads_fail_soft (v : JValue) (xs : List JValue)
    (h : v.isArr = false) :
    load_crops .missing = [] ∧ load_crops .unparsable = [] ∧
    load_expenses .missing = [] ∧ load_expenses .unparsable = [] ∧
    load_soil_data .missing = .obj [] ∧ load_soil_data .unparsable = .obj [] ∧
    load_crops (.parsed (.arr xs)) = xs ∧ load_crops (.parsed v) = [] ∧
    load_expenses (.parsed (.arr xs)) = xs ∧ load_expenses (.parsed v) = [] ∧
    load_soil_data (.parsed v) = v := by
  refine ⟨rfl, rfl, rfl, rfl, rfl, rfl, rfl, ?_, rfl, ?_, rfl⟩ <;>
    cases v <;> simp_all [load_crops, load_expenses, JValue.isArr]

/-- C1 witness: the amended load contract evaluated at the string value
`"x"`. -/
theorem C1_loads_fail_soft_witness :
    (JValue.str "x").isArr = false ∧
    (load_crops .missing = [] ∧ load_crops .unparsable = [] ∧
     load_expenses .missing = [] ∧ load_expenses .unparsable = [] ∧
     load_soil_data .missing = .obj [] ∧ load_soil_data .unparsable = .obj [] ∧
     load_crops (.parsed (.arr [])) = [] ∧ load_crops (.parsed (.str "x")) = [] ∧
     load_expenses (.parsed (.arr [])) = [] ∧
     load_expenses (.parsed (.str "x")) = [] ∧
     load_soil_data (.parsed (.str "x")) = .str "x") :=
  ⟨rfl, C1_loads_fail_soft (.str "x") [] rfl⟩

/-- C3: deleting a crop at an index outside `[0, len)` answers the error dict
`{"error": "Invalid crop index"}`, performs no save, and leaves the stored
list unchanged for any subsequent load. -/
theorem C3_delete_out_of_range {α : Type} (crops : List α) (index : Int)
    (h : index < 0 ∨ (crops.length : Int) ≤ index) :
    (delete_crop crops index).1 = .error "Invalid crop index" ∧
    (delete_crop crops index).2 = none ∧
    stored_after_delete crops index = crops := by
  have hd : delete_crop crops index = (.error "Invalid crop index", none) := by
    unfold delete_crop
    rw [dif_pos h]
  exact ⟨by rw [hd], by rw [hd], by unfold stored_after_delete; rw [hd]; rfl⟩

/-- C3 witness: the out-of-range delete contract at list `[10, 20]` and
index `5`. -/
theorem C3_delete_out_of_range_witness :
    ((5 : Int) < 0 ∨ ((([10, 20] : List Nat).length : Int) ≤ 5)) ∧
    ((delete_crop ([10, 20] : List Nat) 5).1 = .error "Invalid crop index" ∧
     (delete_crop ([10, 20] : List Nat) 5).2 = none ∧
     stored_after_delete ([10, 20] : List Nat) 5 = [10, 20]) :=
  ⟨by decide, C3_delete_out_of_range [10, 20] 5 (by decide)⟩

/-- Accumulator characterisation of the `get_summary` loop: starting from
`(a, b)` it adds the amounts of the `"income"`-typed records to `a` and every
other amount to `b`. -/
theorem get_summary_foldl (s : List Expense) (a b : ℚ) :
    s.foldl
      (fun acc e =>
        if is_income e then (acc.1 + e.amount, acc.2) else (acc.1, acc.2 + e.amount))
      (a, b) =
      (a + ((s.filter is_income).map Expense.amount).sum,
       b + ((s.filter (fun e => !is_income e)).map Expense.amount).sum) := by
  induction s generalizing a b with
  | nil => simp
  | cons e t ih =>
    by_cases h : is_income e <;> simp [h, ih] <;> ring

/-- Closed form of `get_summary`: the two totals are the filtered sums over
the stored list. -/
theorem get_summary_eq (s : List Expense) :
    (get_summary s).total_income = ((s.filter is_income).map Expense.amount).sum ∧
    (get_summary s).total_expense =
      ((s.filter (fun e => !is_income e)).map Expense.amount).sum := by
  unfold get_summary
  rw [get_summary_foldl s 0 0]
  simp

/-- C4: after any sequence of expense additions, the summary is recomputed
from the full stored list — `profit` equals `total_income - total_expense`,
`total_income` is the sum of the amounts of the records typed `"income"` and
`total_expense` the sum of all remaining amounts. -/
theorem C4_summary_recomputed (adds : List (String × ℚ × String × String)) :
    (get_summary (apply_adds adds [])).profit =
      (get_summary (apply_adds adds [])).total_income -
        (get_summary (apply_adds adds [])).total_expense ∧
    (get_summary (apply_adds adds [])).total_income =
      (((apply_adds adds []).filter is_income).map Expense.amount).sum ∧
    (get_summary (apply_adds adds [])).total_expense =
      (((apply_adds adds []).filter (fun e => !is_income e)).map Expense.amount).sum :=
  ⟨rfl, (get_summary_eq (apply_adds adds [])).1, (get_summary_eq (apply_adds adds [])).2⟩

/-- C10: a record whose `type` is anything but exactly `"income"` (a
misspelling, an unknown label, or an absent key) contributes its amount to
`total_expense` and leaves `total_income` untouched. -/
theorem C10_non_income_counted_as_expense (s : List Expense) (e : Expense)
    (h : e.type ≠ some "income") :
    (get_summary (s ++ [e])).total_expense = (get_summary s).total_expense + e.amount ∧
    (get_summary (s ++ [e])).total_income = (get_summary s).total_income := by
  have hb : is_income e = false := by simp [is_income]; exact h
  constructor <;>
    simp [(get_summary_eq _).1, (get_summary_eq _).2, List.filter_append, hb]

/-- C10 witness: a record with no `type` key is counted as an expense. -/
theorem C10_non_income_counted_as_expense_witness :
    (⟨"pesticide", 5, none, "today", none⟩ : Expense).type ≠ some "income" ∧
    ((get_summary ([] ++ [(⟨"pesticide", 5, none, "today", none⟩ : Expense)])).total_expense =
      (get_summary []).total_expense +
        (⟨"pesticide", 5, none, "today", none⟩ : Expense).amount ∧
     (get_summary ([] ++ [(⟨"pesticide", 5, none, "today", none⟩ : Expense)])).total_income =
      (get_summary []).total_income) :=
  ⟨(fun h => nomatch h),
   C10_non_income_counted_as_expense [] ⟨"pesticide", 5, none, "today", none⟩
     (fun h => nomatch h)⟩

/-- C5: inserting expenses dated 2024-01-01, 2024-03-01, 2024-02-01 in that
order and listing them yields the date order 2024-03-01, 2024-02-01,
2024-01-01 — descending by the stored `ts` key. -/
theorem C5_listing_is_ts_descending :
    ((get_expenses (add_expense (add_expense (add_expense []
        "seeds" 100 "expense" "2024-01-01").2
        "sale" 500 "income" "2024-03-01").2
        "labor" 200 "expense" "2024-02-01").2).map Expense.ts =
      [some "2024-03-01", some "2024-02-01", some "2024-01-01"]) ∧
    ((get_expenses (add_expense (add_expense (add_expense []
        "seeds" 100 "expense" "2024-01-01").2
        "sale" 500 "income" "2024-03-01").2
        "labor" 200 "expense" "2024-02-01").2).map Expense.date =
      ["01 Mar 2024", "01 Feb 2024", "01 Jan 2024"]) := by
  decide

/-- Totality of the code-point lexicographic comparison. -/
theorem lexLe_total : ∀ a b : List Char, (lexLe a b || lexLe b a) = true
  | [], b => by simp [lexLe]
  | a :: as, [] => by simp [lexLe]
  | a :: as, b :: bs => by
    by_cases h1 : a < b
    · simp [lexLe, h1, asymm h1]
    · by_cases h2 : b < a
      · simp [lexLe, h1, h2]
      · simpa [lexLe, h1, h2] using lexLe_total as bs

/-- Transitivity of the code-point lexicographic comparison. -/
theorem lexLe_trans :
    ∀ a b c : List Char, lexLe a b = true → lexLe b c = true → lexLe a c = true
  | [], _, _, _, _ => by simp [lexLe]
  | a :: as, [], c, hab, _ => by simp [lexLe] at hab
  | a :: as, b :: bs, [], _, hbc => by simp [lexLe] at hbc
  | a :: as, b :: bs, c :: cs, hab, hbc => by
    simp only [lexLe] at hab hbc ⊢
    by_cases h1 : a < b
    · by_cases h2 : b < c
      · simp [lt_trans h1 h2]
      · by_cases h3 : c < b
        · simp [h2, h3] at hbc
        · have hbcEq : b = c := le_antisymm (not_lt.mp h3) (not_lt.mp h2)
          subst hbcEq
          simp [h1]
    · by_cases h4 : b < a
      · simp [h1, h4] at hab
      · have habEq : a = b := le_antisymm (not_lt.mp h4) (not_lt.mp h1)
        subst habEq
        simp only [lt_irrefl, if_false] at hab
        by_cases h2 : a < c
        · simp [h2]
        · by_cases h3 : c < a
          · simp [h2, h3] at hbc
          · have hacEq : a = c := le_antisymm (not_lt.mp h3) (not_lt.mp h2)
            subst hacEq
            simp only [lt_irrefl, if_false] at hbc ⊢
            exact lexLe_trans as bs cs hab hbc

/-- A list that compares at most the empty list is empty. -/
theorem lexLe_nil_right : ∀ b : List Char, lexLe b [] = true → b = []
  | [], _ => rfl
  | x :: xs, h => by simp [lexLe] at h

/-- Membership after a stable descending insertion. -/
theorem mem_insort {w x : Expense} :
    ∀ {t : List Expense}, w ∈ insort x t → w = x ∨ w ∈ t := by
  intro t
  induction t with
  | nil => intro h; simp [insort] at h; exact Or.inl h
  | cons y t ih =>
    intro h
    by_cases hc : pyStrLe (sort_key y) (sort_key x) = true
    · simp [insort, hc] at h
      rcases h with h | h | h
      · exact Or.inl h
      · exact Or.inr (by simp [h])
      · exact Or.inr (by simp [h])
    · simp [insort, hc] at h
      rcases h with h | h
      · exact Or.inr (by simp [h])
      · rcases ih h with h | h
        · exact Or.inl h
        · exact Or.inr (by simp [h])

/-- Descending order (by `sort_key`) is preserved by a stable insertion. -/
theorem insort_pairwise {x : Expense} :
    ∀ {t : List Expense},
      t.Pairwise (fun a b => pyStrLe (sort_key b) (sort_key a) = true) →
      (insort x t).Pairwise (fun a b => pyStrLe (sort_key b) (sort_key a) = true) := by
  intro t
  induction t with
  | nil => intro _; simp [insort]
  | cons y t ih =>
    intro h
    rcases List.pairwise_cons.mp h with ⟨hy, ht⟩
    by_cases hc : pyStrLe (sort_key y) (sort_key x) = true
    · rw [insort, if_pos hc]
      refine List.pairwise_cons.mpr ⟨?_, h⟩
      intro z hz
      rcases List.mem_cons.mp hz with rfl | hz
      · exact hc
      · exact lexLe_trans _ _ _ (hy z hz) hc
    · rw [insort, if_neg hc]
      refine List.pairwise_cons.mpr ⟨?_, ih ht⟩
      intro z hz
      rcases mem_insort hz with rfl | hz
      · have htot := lexLe_total (sort_key y).data (sort_key z).data
        rcases Bool.or_eq_true_iff.mp htot with h1 | h1
        · exact absurd h1 hc
        · exact h1
      · exact hy z hz

/-- The expense listing is pairwise descending in `sort_key`. -/
theorem get_expenses_pairwise (s : List Expense) :
    (get_expenses s).Pairwise (fun a b => pyStrLe (sort_key b) (sort_key a) = true) := by
  induction s with
  | nil => simp [get_expenses, py_sorted_desc]
  | cons x xs ih =>
    have := insort_pairwise (x := x) (ih.imp (fun h => h))
    simpa [get_expenses, py_sorted_desc] using this

/-- C6 counterexample: with one parsed-date record and one record with no
`ts` and an unparsable date, the listing puts the unparsable record last, not
first as the claim states. -/
theorem C6_unparsable_first_cex :
    sort_key ⟨"misc", 50, some "expense", "soon", none⟩ = "" ∧
    (get_expenses [⟨"sale", 500, some "income", "01 Jan 2024", some "2024-01-01"⟩,
      ⟨"misc", 50, some "expense", "soon", none⟩]).map Expense.title = ["sale", "misc"] ∧
    (get_expenses [⟨"sale", 500, some "income", "01 Jan 2024", some "2024-01-01"⟩,
      ⟨"misc", 50, some "expense", "soon", none⟩]).map Expense.title ≠ ["misc", "sale"] := by
  decide

/-- C6 (amended): a record with no `ts` whose date parses under neither
format gets the empty-string sort key, and since the listing is descending by
key and the empty string is the least string, such records sort last — once
an empty-key record appears, every later record also has the empty key. -/
theorem C6_unparsable_sorts_last (s : List Expense) (e : Expense)
    (h1 : e.ts = none) (h2 : strptime_dby e.date = none)
    (h3 : strptime_ymd e.date = none) :
    sort_key e = "" ∧
    (get_expenses s).Pairwise (fun a b => pyStrLe (sort_key b) (sort_key a) = true) ∧
    (get_expenses s).Pairwise (fun a b => sort_key a = "" → sort_key b = "") := by
  refine ⟨?_, get_expenses_pairwise s, ?_⟩
  · simp [sort_key, h1, date_fallback_key, h2, h3]
  · refine (get_expenses_pairwise s).imp ?_
    intro a b hab ha
    rw [ha] at hab
    have hd : (sort_key b).data = [] := lexLe_nil_right _ hab
    exact String.ext hd

/-- C6 witness: the amended ordering statement on a concrete two-record
store. -/
theorem C6_unparsable_sorts_last_witness :
    sort_key ⟨"fix", 50, some "expense", "later", none⟩ = "" ∧
    (get_expenses [⟨"fix", 50, some "expense", "later", none⟩]).Pairwise
      (fun a b => pyStrLe (sort_key b) (sort_key a) = true) ∧
    (get_expenses [⟨"fix", 50, some "expense", "later", none⟩]).Pairwise
      (fun a b => sort_key a = "" → sort_key b = "") :=
  C6_unparsable_sorts_last [⟨"fix", 50, some "expense", "later", none⟩]
    ⟨"fix", 50, some "expense", "later", none⟩ (by decide) (by decide) (by decide)

/-- C2: with no weather credential, when every cache record fails the exact
case-insensitive match, the substring match, and is not the `"default"` /
`"pune"` fallback entry, `get_weather` returns the error dict — it never
raises (the embedding is total). -/
theorem C2_no_key_all_miss (data : List WeatherRec) (city : String)
    (h : ∀ r ∈ data,
      weather_city_key r ≠ pyLower (pyStrip city) ∧
      ¬(pyLower (pyStrip city) ≠ "" ∧
        pyIn (pyLower (pyStrip city)) (weather_city_key r) = true) ∧
      weather_city_key r ≠ "default" ∧ weather_city_key r ≠ "pune") :
    get_weather_no_key data city = .error "Missing OPENWEATHER_KEY in .env" := by
  have h1 : data.find? (fun r => weather_city_key r == pyLower (pyStrip city)) = none := by
    rw [List.find?_eq_none]
    intro r hr
    simpa using (h r hr).1
  have h2 : data.find?
      (fun r => !(pyLower (pyStrip city) == "") &&
        pyIn (pyLower (pyStrip city)) (weather_city_key r)) = none := by
    rw [List.find?_eq_none]
    intro r hr
    have hm := (h r hr).2.1
    simp only [Bool.and_eq_true, Bool.not_eq_true', beq_eq_false_iff_ne, ne_eq]
    intro hq
    exact hm ⟨hq.1, hq.2⟩
  have h3 : data.find?
      (fun r => (weather_city_key r == "default") || (weather_city_key r == "pune")) = none := by
    rw [List.find?_eq_none]
    intro r hr
    have hd := (h r hr).2.2
    simp [hd.1, hd.2]
  simp only [get_weather_no_key, find_local_weather, h1, h2, h3]

/-- C2 witness: an unconfigured credential, a one-record cache and an absent
city produce the error dict. -/
theorem C2_no_key_all_miss_witness :
    (∀ r ∈ [(⟨"Mumbai", "30", "40", "cloudy"⟩ : WeatherRec)],
      weather_city_key r ≠ pyLower (pyStrip "Delhi") ∧
      ¬(pyLower (pyStrip "Delhi") ≠ "" ∧
        pyIn (pyLower (pyStrip "Delhi")) (weather_city_key r) = true) ∧
      weather_city_key r ≠ "default" ∧ weather_city_key r ≠ "pune") ∧
    get_weather_no_key [⟨"Mumbai", "30", "40", "cloudy"⟩] "Delhi" =
      .error "Missing OPENWEATHER_KEY in .env" :=
  ⟨by decide, C2_no_key_all_miss [⟨"Mumbai", "30", "40", "cloudy"⟩] "Delhi" (by decide)⟩

/-- Closed condition for a complete local price-cache miss: no record matches
the commodity exactly (case-insensitively) nor by substring. -/
theorem find_local_price_eq_none (data : List PriceRec) (crop state : String)
    (h : ∀ r ∈ data,
      pyLower (pyStrip r.crop) ≠ pyLower (pyStrip crop) ∧
      pyIn (pyLower (pyStrip crop)) (pyLower (pyStrip r.crop)) = false) :
    find_local_price data crop state = none := by
  have hexact :
      data.filter (fun r => pyLower (pyStrip r.crop) == pyLower (pyStrip crop)) = [] := by
    rw [List.filter_eq_nil_iff]
    intro r hr
    simpa using (h r hr).1
  have hsub :
      data.filter (fun r => pyIn (pyLower (pyStrip crop)) (pyLower (pyStrip r.crop))) = [] := by
    rw [List.filter_eq_nil_iff]
    intro r hr
    simp [(h r hr).2]
  simp only [find_local_price]
  rw [hexact]
  simp only [List.filter_nil, ite_self]
  by_cases hc : pyLower (pyStrip crop) = ""
  · simp [hc]
  · simp [hc, hsub]

/-- C7: when the live API answers with an empty record set and the local
cache has no exact or substring commodity match, `get_market_price` returns
a dict with exactly the keys `crop`, `state` and `error` (the no-data
message) — in particular no `history` key. -/
theorem C7_no_data_exact_keys (commodity state : String) (data : List PriceRec)
    (u : Nat → ℚ)
    (h : ∀ r ∈ data,
      pyLower (pyStrip r.crop) ≠ pyLower (pyStrip commodity) ∧
      pyIn (pyLower (pyStrip commodity)) (pyLower (pyStrip r.crop)) = false) :
    get_market_price commodity state (.ok []) data u =
      [("crop", .str commodity), ("state", .str state),
       ("error", .str "No data found for the given commodity and state")] ∧
    "history" ∉ (get_market_price commodity state (.ok []) data u).map Prod.fst := by
  have hf := find_local_price_eq_none data commodity state h
  refine ⟨by simp [get_market_price, hf], by simp [get_market_price, hf]⟩

/-- C7 witness: a cache holding only a rice record, queried for wheat with an
empty live record set. -/
theorem C7_no_data_exact_keys_witness :
    (∀ r ∈ [(⟨"Rice", "Punjab", none, none, none, none, none, none, none⟩ : PriceRec)],
      pyLower (pyStrip r.crop) ≠ pyLower (pyStrip "Wheat") ∧
      pyIn (pyLower (pyStrip "Wheat")) (pyLower (pyStrip r.crop)) = false) ∧
    (get_market_price "Wheat" "Goa" (.ok [])
        [⟨"Rice", "Punjab", none, none, none, none, none, none, none⟩] (fun _ => 0) =
      [("crop", .str "Wheat"), ("state", .str "Goa"),
       ("error", .str "No data found for the given commodity and state")] ∧
     "history" ∉ (get_market_price "Wheat" "Goa" (.ok [])
        [⟨"Rice", "Punjab", none, none, none, none, none, none, none⟩]
        (fun _ => 0)).map Prod.fst) :=
  ⟨by decide,
   C7_no_data_exact_keys "Wheat" "Goa"
     [⟨"Rice", "Punjab", none, none, none, none, none, none, none⟩] (fun _ => 0)
     (by decide)⟩

/-- C9 counterexample: with modal price 5 and every draw at the admissible
lower end -1/10, each synthesized price is `int(5 * 0.9) = 4`, which is NOT
within 10% of the modal price (|4 - 5| = 1 > 0.5): the truncation can leave
the 10% band the claim asserts. -/
theorem C9_within10_cex :
    field_get
        (get_market_price "Onion" "Maharashtra"
          (.ok [⟨none, none, 5, none, none, none, none⟩]) [] (fun _ => -(1/10)))
        "history" =
      some (.history (price_history 5 (fun _ => -(1/10)))) ∧
    (price_history 5 (fun _ => -(1/10))).map HistEntry.price =
      [4, 4, 4, 4, 4, 4, 4] ∧
    ¬(|(4 : ℚ) - 5| ≤ 5 * (1/10)) := by
  refine ⟨rfl, ?_, ?_⟩
  · norm_num [price_history, pyInt]
  · intro hcon
    rw [abs_le] at hcon
    have := hcon.1
    norm_num at this

/-- C9 (amended): on a live hit the result carries a `history` of exactly 7
entries, one per day and oldest first; each price is the truncation toward
zero of the modal price scaled by `1 + u`, with the draw `u` in
[-1/10, 1/10], so each price exceeds 90% of the modal price minus one
truncation unit and is at most 110% of it. -/
theorem C9_history_jitter (commodity state : String) (data : List PriceRec)
    (r : ApiRec) (rest : List ApiRec) (u : Nat → ℚ)
    (hm : 0 ≤ r.modal_price)
    (hu : ∀ i, -(1/10) ≤ u i ∧ u i ≤ 1/10) :
    field_get (get_market_price commodity state (.ok (r :: rest)) data u)
        "history" =
      some (.history (price_history r.modal_price u)) ∧
    (price_history r.modal_price u).length = 7 ∧
    (price_history r.modal_price u).map HistEntry.daysAgo = [6, 5, 4, 3, 2, 1, 0] ∧
    ∀ e ∈ price_history r.modal_price u,
      e.price = pyInt (r.modal_price * (1 + u e.daysAgo)) ∧
      r.modal_price * (9/10) - 1 < (e.price : ℚ) ∧
      (e.price : ℚ) ≤ r.modal_price * (11/10) := by
  refine ⟨rfl, by simp [price_history], by simp [price_history], ?_⟩
  intro e he
  simp only [price_history, List.mem_map] at he
  obtain ⟨i, _, rfl⟩ := he
  refine ⟨rfl, ?_⟩
  have h1 : (9/10 : ℚ) ≤ 1 + u i := by linarith [(hu i).1]
  have h2 : 1 + u i ≤ 11/10 := by linarith [(hu i).2]
  have h3 : r.modal_price * (9/10) ≤ r.modal_price * (1 + u i) :=
    mul_le_mul_of_nonneg_left h1 hm
  have h4 : r.modal_price * (1 + u i) ≤ r.modal_price * (11/10) :=
    mul_le_mul_of_nonneg_left h2 hm
  have h5 : 0 ≤ r.modal_price * (1 + u i) :=
    le_trans (mul_nonneg hm (by norm_num)) h3
  have hfl : pyInt (r.modal_price * (1 + u i)) = ⌊r.modal_price * (1 + u i)⌋ :=
    if_pos h5
  rw [hfl]
  have hlow := Int.sub_one_lt_floor (r.modal_price * (1 + u i))
  have hup := Int.floor_le (r.modal_price * (1 + u i))
  constructor <;> [linarith; linarith]

/-- C9 witness: the amended history contract on a live record with modal
price 100 and all draws at 0. -/
theorem C9_history_jitter_witness :
    (0 : ℚ) ≤ (⟨none, none, 100, none, none, none, none⟩ : ApiRec).modal_price ∧
    (field_get (get_market_price "Tomato" "Maharashtra"
        (.ok [⟨none, none, 100, none, none, none, none⟩]) []
        ((fun _ => 0) : Nat → ℚ)) "history" =
      some (.history (price_history
        (⟨none, none, 100, none, none, none, none⟩ : ApiRec).modal_price
        ((fun _ => 0) : Nat → ℚ))) ∧
     (price_history (⟨none, none, 100, none, none, none, none⟩ : ApiRec).modal_price
        ((fun _ => 0) : Nat → ℚ)).length = 7 ∧
     (price_history (⟨none, none, 100, none, none, none, none⟩ : ApiRec).modal_price
        ((fun _ => 0) : Nat → ℚ)).map HistEntry.daysAgo = [6, 5, 4, 3, 2, 1, 0] ∧
     ∀ e ∈ price_history
        (⟨none, none, 100, none, none, none, none⟩ : ApiRec).modal_price
        ((fun _ => 0) : Nat → ℚ),
       e.price = pyInt
         ((⟨none, none, 100, none, none, none, none⟩ : ApiRec).modal_price *
           (1 + (0 : ℚ))) ∧
       (⟨none, none, 100, none, none, none, none⟩ : ApiRec).modal_price * (9/10) - 1 <
         (e.price : ℚ) ∧
       (e.price : ℚ) ≤
         (⟨none, none, 100, none, none, none, none⟩ : ApiRec).modal_price * (11/10)) :=
  ⟨by norm_num,
   C9_history_jitter "Tomato" "Maharashtra" [] ⟨none, none, 100, none, none, none, none⟩
     [] (fun _ => 0) (by norm_num) (fun i => by norm_num)⟩

/-- An infix of a list is an infix of any right-extension. -/
theorem isInfix_append_right {α : Type} (a b c : List α) (h : a <:+: b) :
    a <:+: b ++ c := by
  obtain ⟨s, t, hst⟩ := h
  exact ⟨s, t ++ c, by rw [← hst]; simp⟩

/-- An infix of a list is an infix of any left-extension. -/
theorem isInfix_append_left {α : Type} (a b c : List α) (h : a <:+: c) :
    a <:+: b ++ c := by
  obtain ⟨s, t, hst⟩ := h
  exact ⟨b ++ s, t, by rw [← hst]; simp⟩

/-- Substring containment survives appending on the right. -/
theorem pyIn_append_right (s a b : String) (h : pyIn s a = true) :
    pyIn s (a ++ b) = true := by
  have hp := of_decide_eq_true h
  refine decide_eq_true ?_
  rw [String.data_append]
  exact isInfix_append_right _ _ _ hp

/-- Substring containment survives appending on the left. -/
theorem pyIn_append_left (s a b : String) (h : pyIn s b = true) :
    pyIn s (a ++ b) = true := by
  have hp := of_decide_eq_true h
  refine decide_eq_true ?_
  rw [String.data_append]
  exact isInfix_append_left _ _ _ hp

/-- Lowercasing distributes over concatenation. -/
theorem pyLower_append (a b : String) :
    pyLower (a ++ b) = pyLower a ++ pyLower b := by
  apply String.ext
  simp [pyLower, String.data_append]

/-- Any prompt whose lowering contains `weather` draws the mock weather
answer. -/
theorem mock_response_weather (p : String)
    (h : pyIn "weather" (pyLower p) = true) :
    mock_response p = mock_city_sentence := by
  simp [mock_response, mock_city_sentence, h]

/-- The intent-classification prompt always contains the word `weather` (it
lists the candidate intents), so the offline intent of every question is the
mock weather answer. -/
theorem intent_prompt_weather (q : String) :
    pyIn "weather" (pyLower (intent_prompt q)) = true := by
  unfold intent_prompt
  rw [pyLower_append, pyLower_append]
  apply pyIn_append_right
  apply pyIn_append_right
  decide

/-- The city-extraction prompt contains the question verbatim, so it contains
`weather` whenever the question does. -/
theorem city_prompt_weather (q : String)
    (hq : pyIn "weather" (pyLower q) = true) :
    pyIn "weather" (pyLower (city_prompt q)) = true := by
  unfold city_prompt
  rw [pyLower_append, pyLower_append]
  apply pyIn_append_right
  apply pyIn_append_left
  exact hq

/-- C8 counterexample: for the question `What is the weather today?` in the
offline configuration with an empty local weather cache, `process_query`
answers with the credential error message, which contains neither `clear` nor
`spraying` — the claimed containment fails when the weather lookup misses. -/
theorem C8_offline_weather_cex :
    pyIn "weather" (pyLower "What is the weather today?") = true ∧
    process_query ⟨[], [], .ok [], fun _ => 0, [], []⟩ "What is the weather today?" =
      "Missing OPENWEATHER_KEY in .env" ∧
    pyIn "clear"
      (process_query ⟨[], [], .ok [], fun _ => 0, [], []⟩
        "What is the weather today?") = false ∧
    pyIn "spraying"
      (process_query ⟨[], [], .ok [], fun _ => 0, [], []⟩
        "What is the weather today?") = false := by
  decide

/-- C8 (amended): offline, every question is routed to the weather branch
with the mock weather answer as extracted city; whenever the local weather
lookup for that city yields a record (for example a `default`/`Pune` cache
entry), the rendered answer interpolates the city string and therefore
contains the word `clear` (or `spraying`); when the lookup misses, the answer
is the lookup's error message instead. -/
theorem C8_offline_weather_answer (env : Env) (question : String) (r : WeatherRec)
    (hq : pyIn "weather" (pyLower question) = true)
    (hr : find_local_weather env.wcache mock_city_sentence = some r) :
    pyIn "clear" (process_query env question) = true ∨
    pyIn "spraying" (process_query env question) = true := by
  left
  have h4 : mock_response (intent_prompt question) = mock_city_sentence :=
    mock_response_weather _ (intent_prompt_weather question)
  have h5 : mock_response (city_prompt question) = mock_city_sentence :=
    mock_response_weather _ (city_prompt_weather question hq)
  have hd : detect_intent question =
      "the weather looks clear for the next few days. good for spraying pesticides." := by
    unfold detect_intent ask_llm_no_cred
    rw [h4]
    decide
  have hcity : extract_city question = mock_city_sentence := by
    unfold extract_city ask_llm_no_cred
    rw [h5]
    decide
  have hw : pyIn "weather"
      "the weather looks clear for the next few days. good for spraying pesticides." = true := by
    decide
  have hpq : process_query env question = format_weather mock_city_sentence r := by
    simp only [process_query]
    rw [hd, hcity, if_pos hw]
    simp only [get_weather_no_key, hr]
  rw [hpq]
  unfold format_weather
  exact pyIn_append_right _ _ _ (pyIn_append_right _ _ _ (pyIn_append_right _ _ _
    (pyIn_append_right _ _ _ (pyIn_append_right _ _ _ (pyIn_append_right _ _ _
      (pyIn_append_right _ _ _ (pyIn_append_left _ _ _ (by decide))))))))

/-- C8 witness: a cache holding a Pune record (the default fallback) makes
the offline weather answer contain `clear`. -/
theorem C8_offline_weather_answer_witness :
    pyIn "weather" (pyLower "weather?") = true ∧
    find_local_weather [(⟨"Pune", "30", "40", "clear sky"⟩ : WeatherRec)]
      mock_city_sentence = some ⟨"Pune", "30", "40", "clear sky"⟩ ∧
    (pyIn "clear"
        (process_query ⟨[⟨"Pune", "30", "40", "clear sky"⟩], [], .ok [],
          fun _ => 0, [], []⟩ "weather?") = true ∨
     pyIn "spraying"
        (process_query ⟨[⟨"Pune", "30", "40", "clear sky"⟩], [], .ok [],
          fun _ => 0, [], []⟩ "weather?") = true) :=
  ⟨by decide, by decide,
   C8_offline_weather_answer
     ⟨[⟨"Pune", "30", "40", "clear sky"⟩], [], .ok [], fun _ => 0, [], []⟩
     "weather?" ⟨"Pune", "30", "40", "clear sky"⟩ (by decide) (by decide)⟩
